import Mathlib

/-!
Shallow embedding of the izuka_llm repository for specification checking.

Two components are modelled, following the source layout:

* the OpenAI-compatible HTTP facade
  (src/izuka_llm/app/openai_compatable.py, src/izuka_llm/schemas/dto.py);
* the agent turn-taking loop (src/izuka_llm/agents/character.py).

Python strings become Lean String (python len counts unicode code points,
as String.length does); python lists become List; a handler that can raise
HTTPException becomes a function into Except HTTPException.
-/

namespace Izuka

/-- ChatMessage (schemas/dto.py): a role ("system" | "user" | "assistant")
and textual content. The role is kept as a String; the pydantic Literal
constraint only restricts which requests parse, which no claim depends on. -/
structure ChatMessage where
  role : String
  content : String
deriving Repr, DecidableEq

/-- ChatCompletionRequest (schemas/dto.py): model name, ordered message
list, and generation parameters that are accepted but unused downstream. -/
structure ChatCompletionRequest where
  model : String
  messages : List ChatMessage
  temperature : Option Float := some 0.7
  max_tokens : Option Int := some 1024
deriving Repr

/-- UsageInfo (schemas/dto.py). Token counts are plain integers. -/
structure UsageInfo where
  prompt_tokens : Nat := 0
  completion_tokens : Nat := 0
  total_tokens : Nat := 0
deriving Repr, DecidableEq

/-- ChatChoice (schemas/dto.py): index, generated message, finish reason
(defaulting to "stop"). -/
structure ChatChoice where
  index : Nat
  message : ChatMessage
  finish_reason : String := "stop"
deriving Repr, DecidableEq

/-- ChatCompletionResponse (schemas/dto.py). The id and created fields are
produced by default factories (a fresh uuid4 hex and the current unix time);
they are process-level effects that no claim mentions, so they are left out
of the embedding rather than stubbed with fake values. -/
structure ChatCompletionResponse where
  object : String := "chat.completion"
  model : String
  choices : List ChatChoice
  usage : UsageInfo
deriving Repr, DecidableEq

/-- ModelInfo (schemas/dto.py). The created timestamp comes from a
default factory reading the clock; here it is passed in explicitly. -/
structure ModelInfo where
  id : String
  object : String := "model"
  created : Nat
  owned_by : String := "local-api"
deriving Repr, DecidableEq

/-- ModelList (schemas/dto.py). -/
structure ModelList where
  object : String := "list"
  data : List ModelInfo
deriving Repr, DecidableEq

/-- The error raised by fastapi handlers (status code and detail string). -/
structure HTTPException where
  status_code : Nat
  detail : String
deriving Repr, DecidableEq

/-- The fixed greeting fake_llm_call returns when no user message is found
(openai_compatable.py line 29). -/
def greeting : String := "你好！有什么可以帮助你的吗？"

/-- The reply template of fake_llm_call (openai_compatable.py line 30):
the f-string embedding the last user message content. -/
def template (s : String) : String :=
  "这是一个模拟回复，针对你的问题：\x27" ++ s ++ "\x27。"

/-- fake_llm_call (openai_compatable.py lines 15-30): scan the message list
from the end for the first entry with role "user" (last_user_message stays
"" when there is none); an empty last_user_message (python falsiness of the
empty string) yields the fixed greeting, otherwise the template applies. -/
def fake_llm_call (messages : List ChatMessage) : String :=
  let last_user_message :=
    match messages.reverse.find? (fun msg => msg.role == "user") with
    | some msg => msg.content
    | none => ""
  if last_user_message == "" then greeting
  else template last_user_message

/-- The statically declared model identifiers
(openai_compatable.py lines 42-46 and 57). -/
def supported_models : List String :=
  ["gpt-3.5-turbo", "gpt-4", "custom-local-model"]

/-- list_models (openai_compatable.py lines 35-47). The created field of
each entry is the clock value at call time, passed here as now. -/
def list_models (now : Nat) : ModelList :=
  { data :=
      [ { id := "gpt-3.5-turbo", created := now },
        { id := "gpt-4", created := now },
        { id := "custom-local-model", created := now } ] }

/-- create_chat_completion (openai_compatable.py lines 50-86): reject a
model outside supported_models with HTTP 400, else build the assistant
reply via fake_llm_call, a single choice at index 0, and usage counters
that are character counts. -/
def create_chat_completion (request : ChatCompletionRequest) :
    Except HTTPException ChatCompletionResponse :=
  if request.model ∉ supported_models then
    Except.error
      { status_code := 400,
        detail := "Model \x27" ++ request.model ++ "\x27 not found." }
  else
    let messages_dict := request.messages
    let assistant_response_content := fake_llm_call messages_dict
    let assistant_message : ChatMessage :=
      { role := "assistant", content := assistant_response_content }
    let choice : ChatChoice := { index := 0, message := assistant_message }
    let prompt_tokens := (messages_dict.map (fun m => m.content.length)).sum
    let completion_tokens := assistant_response_content.length
    let usage : UsageInfo :=
      { prompt_tokens := prompt_tokens,
        completion_tokens := completion_tokens,
        total_tokens := prompt_tokens + completion_tokens }
    Except.ok
      { model := request.model,
        choices := [choice],
        usage := usage }

/-- Observation helper: the assistant message contents of a handler
outcome, or none when the handler raised instead of returning a body. -/
def response_contents (r : Except HTTPException ChatCompletionResponse) :
    Option (List String) :=
  match r with
  | Except.ok resp => some (resp.choices.map (fun c => c.message.content))
  | Except.error _ => none

/-- Observation helper: the usage block of a successful outcome. -/
def response_usage (r : Except HTTPException ChatCompletionResponse) :
    Option UsageInfo :=
  match r with
  | Except.ok resp => some resp.usage
  | Except.error _ => none

/-- Base path of the APIRouter (openai_compatable.py line 8): every route
of this router is mounted under it. -/
def routerBasePath : String := "/v1"

/-- The path declared on the redirect_model_api decorator
(openai_compatable.py line 91). -/
def redirect_model_route_path : String := "/model"

/-- Full mounted path of a route on this router: base path concatenated
with the declared route path (fastapi APIRouter semantics). -/
def full_path (p : String) : String := routerBasePath ++ p

/-- The target url of the RedirectResponse returned by redirect_model_api
(openai_compatable.py line 95). -/
def redirect_model_target : String := "/v1/models"

/-- Tool invocation record (agents/character.py): name, structured
arguments (modelled as key-value pairs), and the correlation identifier
used to match the eventual tool result back to the request. -/
structure ToolCall where
  name : String
  args : List (String × String)
  id : String
deriving Repr, DecidableEq

/-- Conversation entries of the agent loop (langchain message kinds used
by agents/character.py): human and assistant messages, and tool results
carrying the correlation identifier of their invocation. Only assistant
messages carry a tool_calls list. -/
inductive Message where
  | human (content : String)
  | ai (content : String) (tool_calls : List ToolCall)
  | tool (content : String) (tool_call_id : String)
deriving Repr, DecidableEq

/-- Outcome of running one tool call under
tool_executor.batch(..., return_exceptions=True): either the stringified
return value, or the repr text of a raised exception, returned in place
instead of propagating. -/
inductive ToolOutcome where
  | ok (output : String)
  | exn (excRepr : String)
deriving Repr, DecidableEq

/-- The langgraph END sentinel, the value should_continue returns to end
the run. Its runtime value is the string below. -/
def END : String := "__end__"

/-- should_continue (agents/character.py lines 85-93): look at the last
message; an assistant message with a non-empty tool_calls list routes to
"tools", anything else (no tool_calls attribute, or an empty list, both
falsy in python) returns END. The python code indexes messages[-1]; the
empty conversation never reaches routing because the entry point is the
agent node, which always appends a message first. -/
def should_continue (messages : List Message) : String :=
  match messages.getLast? with
  | some (Message.ai _ tool_calls) =>
      if tool_calls.isEmpty then END else "tools"
  | _ => END

/-- tools_node (agents/character.py lines 55-79): run every tool call of
the last assistant message through the executor (exec stands for the
batch executor with return_exceptions=True, one outcome per call, input
order preserved), then turn each outcome into one tool-result message
carrying that call's correlation identifier; a raised exception becomes
the textual error entry instead of aborting the step. -/
def tools_node (exec : ToolCall → ToolOutcome) (messages : List Message) :
    List Message :=
  match messages.getLast? with
  | some (Message.ai _ tool_calls) =>
      let tool_outputs := tool_calls.map exec
      (tool_outputs.zip tool_calls).map (fun p =>
        match p.1 with
        | ToolOutcome.exn r => Message.tool ("Error: " ++ r) p.2.id
        | ToolOutcome.ok s => Message.tool s p.2.id)
  | _ => []

/-- The path map passed to workflow.add_conditional_edges
(agents/character.py lines 108-115): the keys are the string "tools" and
the literal string "END"; the values are the node "tools" and the END
sentinel. -/
def conditional_edge_map : List (String × String) :=
  [("tools", "tools"), ("END", END)]

/-- Conditional-edge dispatch of the orchestration library (langgraph is a
third-party dependency, not part of this repository): the value returned
by the routing function is looked up among the keys of the supplied path
map; a value absent from the map has no destination (langgraph raises a
KeyError there), modelled as none. -/
def route_after_agent (messages : List Message) : Option String :=
  conditional_edge_map.lookup (should_continue messages)

/-- The unconditional edges of the workflow
(agents/character.py line 119): after the tool step, control returns to
the agent step. -/
def static_edges : List (String × String) := [("tools", "agent")]

/-- A concrete tool executor for exercising the tool step: the tool named
"boom" raises, every other tool returns a result string. -/
def demoExec : ToolCall → ToolOutcome := fun c =>
  if c.name == "boom" then ToolOutcome.exn "RuntimeError(\x27boom\x27)"
  else ToolOutcome.ok ("result of " ++ c.name)

/-- Two concrete invocations issued by one assistant message, the second
of which raises during execution. -/
def demoCalls : List ToolCall :=
  [ { name := "search", args := [("query", "mayor of SF")], id := "call_0" },
    { name := "boom", args := [], id := "call_1" } ]

/-- Observation helper: the correlation identifier of a tool-result
message, none for other message kinds. -/
def tool_result_id : Message → Option String
  | Message.tool _ tcid => some tcid
  | _ => none

/-- A concrete request whose last user entry has empty content. -/
def emptyUserReq : ChatCompletionRequest :=
  { model := "custom-local-model",
    messages := [{ role := "user", content := "" }] }

/-- The concrete response body produced for emptyUserReq. -/
def emptyUserResp : ChatCompletionResponse :=
  { model := "custom-local-model",
    choices := [{ index := 0,
                  message := { role := "assistant", content := greeting } }],
    usage := { prompt_tokens := 0, completion_tokens := greeting.length,
               total_tokens := greeting.length } }

/-- Mapping over the zip of a mapped list with the list itself is a single
map over the list. -/
theorem zip_map_self {α β γ : Type} (g : α → β) (f : β × α → γ) :
    ∀ l : List α, ((l.map g).zip l).map f = l.map (fun a => f (g a, a))
  | [] => rfl
  | a :: t => by simp [zip_map_self g f t]

/-- Unfolding of the tool step on a conversation ending in an assistant
message with the given invocations. -/
theorem tools_node_concat (exec : ToolCall → ToolOutcome)
    (pre : List Message) (content : String) (calls : List ToolCall) :
    tools_node exec (pre ++ [Message.ai content calls]) =
      calls.map (fun c =>
        match exec c with
        | ToolOutcome.exn r => Message.tool ("Error: " ++ r) c.id
        | ToolOutcome.ok s => Message.tool s c.id) := by
  unfold tools_node
  rw [List.getLast?_concat]
  exact zip_map_self exec _ calls

/-- C1: an assistant message carrying one or more tool invocations routes
to the tool step, and the static edge returns control from the tool step
to the agent step; but an assistant message carrying zero tool invocations
makes should_continue return the sentinel value "__end__", which is not
among the keys of the conditional edge map (the map keys are "tools" and
the literal string "END"), so the dispatch finds no destination at all
instead of terminating the run cleanly. -/
theorem C1_routing_divergence :
    (∀ (pre : List Message) (content : String),
        should_continue (pre ++ [Message.ai content []]) = END ∧
        route_after_agent (pre ++ [Message.ai content []]) = none) ∧
    (∀ (pre : List Message) (content : String) (c : ToolCall)
        (cs : List ToolCall),
        route_after_agent (pre ++ [Message.ai content (c :: cs)])
          = some "tools") ∧
    END ∉ conditional_edge_map.map Prod.fst ∧
    static_edges.lookup "tools" = some "agent" := by
  refine ⟨?_, ?_, by decide, by decide⟩
  · intro pre content
    have hsc : should_continue (pre ++ [Message.ai content []]) = END := by
      simp [should_continue, List.getLast?_concat]
    refine ⟨hsc, ?_⟩
    unfold route_after_agent
    rw [hsc]
    decide
  · intro pre content c cs
    have hsc : should_continue (pre ++ [Message.ai content (c :: cs)])
        = "tools" := by
      simp [should_continue, List.getLast?_concat]
    unfold route_after_agent
    rw [hsc]
    decide

/-- C5: in the tool step, an invocation that raises yields exactly one
tool-result entry whose content is the error indicator built from the
exception and whose correlation identifier is that invocation's id, and
every sibling invocation still gets its own result entry (the result list
has one entry per invocation). -/
theorem C5_tool_error_isolated (exec : ToolCall → ToolOutcome)
    (pre : List Message) (content : String) (calls : List ToolCall)
    (k : Nat) (h : k < calls.length) (r : String)
    (herr : exec calls[k] = ToolOutcome.exn r) :
    (tools_node exec (pre ++ [Message.ai content calls])).length
        = calls.length ∧
    (tools_node exec (pre ++ [Message.ai content calls]))[k]? =
      some (Message.tool ("Error: " ++ r) calls[k].id) := by
  rw [tools_node_concat]
  refine ⟨List.length_map _ _, ?_⟩
  rw [List.getElem?_map, List.getElem?_eq_getElem h]
  simp [herr]

/-- Witness for C5: a concrete two-call batch where the second call
raises and both calls still get their correlated result entries. -/
theorem C5_witness :
    (tools_node demoExec
        ([] ++ [Message.ai "calling tools" demoCalls])).length
      = demoCalls.length ∧
    (tools_node demoExec ([] ++ [Message.ai "calling tools" demoCalls]))[1]? =
      some (Message.tool ("Error: " ++ "RuntimeError(\x27boom\x27)")
        (demoCalls.get ⟨1, by decide⟩).id) :=
  C5_tool_error_isolated demoExec [] "calling tools" demoCalls 1 (by decide)
    "RuntimeError(\x27boom\x27)" (by decide)

/-- C7: the tool-result entries contributed to the conversation are
list-ordered in invocation order: the entry at position k carries the
correlation identifier of the invocation at position k. -/
theorem C7_tool_results_ordered (exec : ToolCall → ToolOutcome)
    (pre : List Message) (content : String) (calls : List ToolCall)
    (k : Nat) (h : k < calls.length) :
    ((tools_node exec (pre ++ [Message.ai content calls]))[k]?.bind
        tool_result_id)
      = some calls[k].id := by
  rw [tools_node_concat, List.getElem?_map, List.getElem?_eq_getElem h]
  cases hx : exec calls[k] <;> simp [hx, tool_result_id]

/-- Witness for C7: in the concrete two-call batch the first result entry
carries the first invocation's identifier. -/
theorem C7_witness :
    ((tools_node demoExec
        ([] ++ [Message.ai "calling tools" demoCalls]))[0]?.bind
        tool_result_id)
      = some (demoCalls.get ⟨0, by decide⟩).id :=
  C7_tool_results_ordered demoExec [] "calling tools" demoCalls 0 (by decide)

/-- C2 counterexample: a request with a supported model whose only message
has role "user" and empty content is answered with the fixed greeting,
which differs from the template applied to the empty string; and a request
that has a user entry but an unsupported model gets no assistant message
at all. Both cases falsify the claim as stated. -/
theorem C2_counterexample :
    (response_contents (create_chat_completion
        { model := "gpt-4", messages := [{ role := "user", content := "" }] })
      = some [greeting] ∧
      greeting ≠ template "") ∧
    response_contents (create_chat_completion
        { model := "llama", messages := [{ role := "user", content := "hi" }] })
      = none := by
  refine ⟨⟨?_, ?_⟩, ?_⟩ <;> decide

/-- C2 amended: for a request with a supported model whose message list
has a user entry and whose last user entry (scanning from the end) has
non-empty content, the single assistant message content is the template
applied to that content. -/
theorem C2_amended_template_reply (req : ChatCompletionRequest)
    (m : ChatMessage)
    (hmodel : req.model ∈ supported_models)
    (hfind : req.messages.reverse.find? (fun msg => msg.role == "user")
      = some m)
    (hne : m.content ≠ "") :
    response_contents (create_chat_completion req)
      = some [template m.content] := by
  have hbeq : (m.content == "") = false := beq_eq_false_iff_ne.mpr hne
  have hfake : fake_llm_call req.messages = template m.content := by
    unfold fake_llm_call
    rw [hfind]
    simp [hbeq]
  unfold create_chat_completion
  rw [if_neg (not_not_intro hmodel)]
  simp [response_contents, hfake]

/-- Witness for the amended C2 at a concrete request. -/
theorem C2_amended_witness :
    response_contents (create_chat_completion
        { model := "gpt-4", messages := [{ role := "user", content := "hi" }] })
      = some [template "hi"] :=
  C2_amended_template_reply _ { role := "user", content := "hi" }
    (by decide) (by decide) (by decide)

/-- C3: a request whose message list has no user-role entry, whatever
other roles appear, is answered with the fixed greeting as the assistant
message content. -/
theorem C3_no_user_greeting (req : ChatCompletionRequest)
    (hnouser : ∀ m ∈ req.messages, m.role ≠ "user")
    (hmodel : req.model ∈ supported_models) :
    fake_llm_call req.messages = greeting ∧
    response_contents (create_chat_completion req) = some [greeting] := by
  have hfind : req.messages.reverse.find? (fun msg => msg.role == "user")
      = none := by
    rw [List.find?_eq_none]
    intro x hx
    simpa using hnouser x (List.mem_reverse.mp hx)
  have hfake : fake_llm_call req.messages = greeting := by
    unfold fake_llm_call
    rw [hfind]
    simp
  refine ⟨hfake, ?_⟩
  unfold create_chat_completion
  rw [if_neg (not_not_intro hmodel)]
  simp [response_contents, hfake]

/-- Witness for C3: only system and assistant roles present. -/
theorem C3_witness :
    fake_llm_call [{ role := "system", content := "be nice" },
                   { role := "assistant", content := "earlier reply" }]
      = greeting ∧
    response_contents (create_chat_completion
        { model := "gpt-3.5-turbo",
          messages := [{ role := "system", content := "be nice" },
                       { role := "assistant", content := "earlier reply" }] })
      = some [greeting] :=
  C3_no_user_greeting
    { model := "gpt-3.5-turbo",
      messages := [{ role := "system", content := "be nice" },
                   { role := "assistant", content := "earlier reply" }] }
    (by decide) (by decide)

/-- C4: a request whose model is outside the supported set fails with the
HTTP 400 error naming that model and produces no completion body, while a
request whose model is in the set raises no such error and produces a
body. -/
theorem C4_model_validation (req : ChatCompletionRequest) :
    (req.model ∉ supported_models →
      create_chat_completion req =
        Except.error
          { status_code := 400,
            detail := "Model \x27" ++ req.model ++ "\x27 not found." }) ∧
    (req.model ∈ supported_models →
      ∃ resp, create_chat_completion req = Except.ok resp) := by
  constructor
  · intro h
    unfold create_chat_completion
    rw [if_pos h]
  · intro h
    unfold create_chat_completion
    rw [if_neg (not_not_intro h)]
    exact ⟨_, rfl⟩

/-- Witness for C4: a rejected and an accepted concrete model name. -/
theorem C4_witness :
    create_chat_completion { model := "llama-2", messages := [] } =
      Except.error
        { status_code := 400,
          detail := "Model \x27" ++ "llama-2" ++ "\x27 not found." } ∧
    ∃ resp,
      create_chat_completion { model := "gpt-4", messages := [] }
        = Except.ok resp :=
  ⟨(C4_model_validation { model := "llama-2", messages := [] }).1 (by decide),
   (C4_model_validation { model := "gpt-4", messages := [] }).2 (by decide)⟩

/-- C6: for every accepted request the usage block reports prompt_tokens
as the summed character lengths of the input message contents,
completion_tokens as the character length of the generated reply, and
total_tokens as their sum. -/
theorem C6_usage_counters (req : ChatCompletionRequest)
    (hmodel : req.model ∈ supported_models) :
    response_usage (create_chat_completion req) =
      some { prompt_tokens := (req.messages.map (fun m => m.content.length)).sum,
             completion_tokens := (fake_llm_call req.messages).length,
             total_tokens :=
               (req.messages.map (fun m => m.content.length)).sum
                 + (fake_llm_call req.messages).length } := by
  unfold create_chat_completion
  rw [if_neg (not_not_intro hmodel)]
  rfl

/-- Witness for C6: concrete counts for a one-message request. -/
theorem C6_witness :
    response_usage (create_chat_completion
        { model := "gpt-4",
          messages := [{ role := "user", content := "hi" }] }) =
      some { prompt_tokens := 2, completion_tokens := 21,
             total_tokens := 23 } := by
  rw [C6_usage_counters
    { model := "gpt-4", messages := [{ role := "user", content := "hi" }] }
    (by decide)]
  decide

/-- C8: the list-models operation returns exactly the three statically
declared identifiers, each with object "model", the generation timestamp,
and the ownership tag, independent of any request state. -/
theorem C8_static_model_list (now : Nat) :
    (list_models now).object = "list" ∧
    (list_models now).data =
      [ { id := "gpt-3.5-turbo", object := "model", created := now,
          owned_by := "local-api" },
        { id := "gpt-4", object := "model", created := now,
          owned_by := "local-api" },
        { id := "custom-local-model", object := "model", created := now,
          owned_by := "local-api" } ] ∧
    (list_models now).data.map ModelInfo.id = supported_models :=
  ⟨rfl, rfl, rfl⟩

/-- Witness for C8 at a concrete clock value. -/
theorem C8_witness :
    (list_models 0).object = "list" ∧
    (list_models 0).data =
      [ { id := "gpt-3.5-turbo", object := "model", created := 0,
          owned_by := "local-api" },
        { id := "gpt-4", object := "model", created := 0,
          owned_by := "local-api" },
        { id := "custom-local-model", object := "model", created := 0,
          owned_by := "local-api" } ] ∧
    (list_models 0).data.map ModelInfo.id = supported_models :=
  C8_static_model_list 0

/-- C9: the legacy redirect handler is declared with route path "/model"
on the router whose base path is "/v1", so the redirect is served at
/v1/model and not at /model; its target is /v1/models. -/
theorem C9_redirect_path :
    full_path redirect_model_route_path = "/v1/model" ∧
    full_path redirect_model_route_path ≠ "/model" ∧
    redirect_model_target = "/v1/models" := by
  refine ⟨rfl, ?_, rfl⟩
  decide

/-- C10: a request whose last user entry has empty content is answered
with the fixed greeting rather than the template at the empty string, and
every successful response carries exactly one choice, at index 0, with
role "assistant" and finish reason "stop". -/
theorem C10_empty_user_and_choice_shape :
    (∀ (req : ChatCompletionRequest) (m : ChatMessage),
        req.model ∈ supported_models →
        req.messages.reverse.find? (fun msg => msg.role == "user")
          = some m →
        m.content = "" →
        response_contents (create_chat_completion req) = some [greeting] ∧
        greeting ≠ template "") ∧
    (∀ (req : ChatCompletionRequest) (resp : ChatCompletionResponse),
        create_chat_completion req = Except.ok resp →
        resp.choices =
          [ { index := 0,
              message := { role := "assistant",
                           content := fake_llm_call req.messages },
              finish_reason := "stop" } ]) := by
  constructor
  · intro req m hmodel hfind hempty
    have hfake : fake_llm_call req.messages = greeting := by
      unfold fake_llm_call
      rw [hfind]
      simp [hempty]
    refine ⟨?_, by decide⟩
    unfold create_chat_completion
    rw [if_neg (not_not_intro hmodel)]
    simp [response_contents, hfake]
  · intro req resp hok
    unfold create_chat_completion at hok
    split at hok
    · exact absurd hok (by simp)
    · simp only [Except.ok.injEq] at hok
      subst hok
      rfl

/-- Witness for C10 at a concrete empty-content request and its concrete
response body. -/
theorem C10_witness :
    (response_contents (create_chat_completion emptyUserReq)
        = some [greeting] ∧
      greeting ≠ template "") ∧
    emptyUserResp.choices =
      [ { index := 0,
          message := { role := "assistant",
                       content := fake_llm_call emptyUserReq.messages },
          finish_reason := "stop" } ] :=
  ⟨C10_empty_user_and_choice_shape.1 emptyUserReq
      { role := "user", content := "" } (by decide) (by decide) rfl,
   C10_empty_user_and_choice_shape.2 emptyUserReq emptyUserResp rfl⟩

end Izuka
